import Mathlib

/-!
# Verification of the Rancho Cordova AI chat route

Shallow embedding of the request router, answer extractor and retrieval
post-filters of `src/app/api/chat/route.ts` (router variant), of the
chart-extraction block of `src/unnamed/part_016`, and of the match
post-filtering of `src/unnamed/part_013`.

External network calls (LLM completions, the Supabase RPC, the HuggingFace
embedding endpoint, the Pinecone index) are modelled as oracle inputs: the
handlers are pure functions of the message and of the values those calls
return.  JavaScript strings are modelled as Lean `String`/`List Char`;
JSON.parse is modelled by an executable recursive-descent parser `jsonParse`
over an inductive `Json` type; JavaScript truthiness is `jsTruthy`.
-/

namespace RanchoCordova

/-- A parsed JSON value, as produced by JavaScript `JSON.parse`.
Numbers are modelled as rationals (every JSON numeral denotes a rational). -/
inductive Json where
  | null
  | bool (b : Bool)
  | num (q : Rat)
  | str (s : String)
  | arr (elems : List Json)
  | obj (fields : List (String × Json))
deriving Repr, BEq

/-- The character `{` (written by code to keep braces out of literals). -/
def lbrace : Char := Char.ofNat 123

/-- The character `}`. -/
def rbrace : Char := Char.ofNat 125

/-- The character `"`. -/
def dquote : Char := Char.ofNat 34

/-- The character `\`. -/
def bslash : Char := Char.ofNat 92

/-- JavaScript truthiness of a JSON value: `null`, `false`, `0` and the
empty string are falsy, everything else (objects and arrays included)
is truthy. -/
def jsTruthy : Json → Bool
  | .null => false
  | .bool b => b
  | .num q => q != 0
  | .str s => s != ""
  | .arr _ => true
  | .obj _ => true

/-- Property access `v.k` on a parsed JSON value: defined only on objects;
with duplicate keys `JSON.parse` keeps the last occurrence, so lookup is
from the right.  `none` models JavaScript `undefined` (which is falsy). -/
def getField : Json → String → Option Json
  | .obj fields, k => (fields.reverse.find? (fun p => p.1 == k)).map (·.2)
  | _, _ => none

/-- Truthiness of an optional value (`none` models `undefined`). -/
def jsTruthyO : Option Json → Bool
  | none => false
  | some v => jsTruthy v

/-- `Array.isArray`. -/
def isArr : Json → Bool
  | .arr _ => true
  | _ => false

/-- JSON whitespace accepted between tokens by `JSON.parse`. -/
def jsonWs (c : Char) : Bool :=
  c = ' ' || c = '\t' || c = '\n' || c = '\r'

/-- Drop leading JSON whitespace. -/
def skipWs : List Char → List Char
  | [] => []
  | c :: cs => if jsonWs c then skipWs cs else c :: cs

/-- Value of a hexadecimal digit. -/
def hexVal (c : Char) : Option Nat :=
  if '0' ≤ c ∧ c ≤ '9' then some (c.toNat - 48)
  else if 'a' ≤ c ∧ c ≤ 'f' then some (c.toNat - 87)
  else if 'A' ≤ c ∧ c ≤ 'F' then some (c.toNat - 55)
  else none

/-- Decimal digit value. -/
def digVal (c : Char) : Nat := c.toNat - 48

/-- Split off the maximal leading run of decimal digits. -/
def digitRun : List Char → List Char × List Char
  | [] => ([], [])
  | c :: cs =>
      if c.isDigit then
        let (ds, rest) := digitRun cs
        (c :: ds, rest)
      else ([], c :: cs)

/-- Numeric value of a digit list (most significant first). -/
def digitsVal (ds : List Char) : Nat :=
  ds.foldl (fun acc c => acc * 10 + digVal c) 0

/-- Body of a JSON string literal (after the opening quote), with the
standard escapes; rejects raw control characters, as `JSON.parse` does.
Returns the decoded characters and the input after the closing quote. -/
def parseStrBody (fuel : Nat) (s : List Char) : Option (List Char × List Char) :=
  match fuel, s with
  | 0, _ => none
  | _, [] => none
  | fuel + 1, c :: cs =>
      if c = dquote then
        some ([], cs)
      else if c = bslash then
        match cs with
        | [] => none
        | e :: cs2 =>
            if e = dquote || e = bslash || e = '/' then
              (parseStrBody fuel cs2).map (fun p => (e :: p.1, p.2))
            else if e = 'n' then
              (parseStrBody fuel cs2).map (fun p => ('\n' :: p.1, p.2))
            else if e = 't' then
              (parseStrBody fuel cs2).map (fun p => ('\t' :: p.1, p.2))
            else if e = 'r' then
              (parseStrBody fuel cs2).map (fun p => ('\r' :: p.1, p.2))
            else if e = 'b' then
              (parseStrBody fuel cs2).map (fun p => (Char.ofNat 8 :: p.1, p.2))
            else if e = 'f' then
              (parseStrBody fuel cs2).map (fun p => (Char.ofNat 12 :: p.1, p.2))
            else if e = 'u' then
              match cs2 with
              | h1 :: h2 :: h3 :: h4 :: cs3 =>
                  match hexVal h1, hexVal h2, hexVal h3, hexVal h4 with
                  | some a, some b, some c3, some d =>
                      let n := ((a * 16 + b) * 16 + c3) * 16 + d
                      (parseStrBody fuel cs3).map (fun p => (Char.ofNat n :: p.1, p.2))
                  | _, _, _, _ => none
              | _ => none
            else none
      else if c.toNat < 32 then none
      else (parseStrBody fuel cs).map (fun p => (c :: p.1, p.2))

/-- The rational `sgn * ip.frac * 10 ^ ex` denoted by a JSON numeral. -/
def ratOfParts (sgn : Int) (ip : Nat) (fracDs : List Char) (ex : Int) : Rat :=
  let mant : Int := sgn * (ip * 10 ^ fracDs.length + digitsVal fracDs)
  let base : Rat := (mant : Rat) / ((10 ^ fracDs.length : Nat) : Rat)
  if 0 ≤ ex then base * ((10 ^ ex.toNat : Nat) : Rat)
  else base / ((10 ^ (-ex).toNat : Nat) : Rat)

/-- An optional exponent part `e`/`E` with sign and digits; yields exponent
`0` when the input does not start with an exponent marker. -/
def parseExpPart : List Char → Option (Int × List Char)
  | 'e' :: rest | 'E' :: rest =>
      let (esgn, rest2) : Int × List Char :=
        match rest with
        | '+' :: r => (1, r)
        | '-' :: r => (-1, r)
        | _ => (1, rest)
      let (eds, rest3) := digitRun rest2
      if eds = [] then none else some (esgn * digitsVal eds, rest3)
  | s => some (0, s)

/-- A JSON numeral starting at the head of the input (strict JSON grammar:
no leading zeros, optional fraction and exponent), as a rational. -/
def parseNum (s : List Char) : Option (Rat × List Char) :=
  let (sgn, s1) : Int × List Char :=
    match s with
    | '-' :: rest => (-1, rest)
    | _ => ((1 : Int), s)
  match s1 with
  | [] => none
  | c :: cs =>
      if ¬ c.isDigit then none
      else
        let (ip, s2) : Nat × List Char :=
          if c = '0' then (0, cs)
          else
            let (ds, rest) := digitRun s1
            (digitsVal ds, rest)
        match s2 with
        | '.' :: rest =>
            let (fds, s3) := digitRun rest
            if fds = [] then none
            else
              match parseExpPart s3 with
              | none => none
              | some (ex, s4) => some (ratOfParts sgn ip fds ex, s4)
        | _ =>
            match parseExpPart s2 with
            | none => none
            | some (ex, s4) => some (ratOfParts sgn ip [] ex, s4)

/-- Literal keyword at the head of the input. -/
def expectChars : List Char → List Char → Option (List Char)
  | [], s => some s
  | k :: ks, c :: cs => if c = k then expectChars ks cs else none
  | _ :: _, [] => none

mutual

/-- A JSON value at the head of the input (leading whitespace allowed),
following the behaviour of JavaScript `JSON.parse`.  `fuel` bounds the
recursion depth; `jsonParse` supplies more than enough. -/
def parseVal (fuel : Nat) (s : List Char) : Option (Json × List Char) :=
  match fuel with
  | 0 => none
  | fuel + 1 =>
      match skipWs s with
      | [] => none
      | c :: cs =>
          if c = lbrace then parseObjBody fuel cs
          else if c = '[' then parseArrBody fuel cs
          else if c = dquote then
            (parseStrBody (cs.length + 1) cs).map
              (fun p => (Json.str (String.mk p.1), p.2))
          else if c = 't' then
            (expectChars ['r', 'u', 'e'] cs).map (fun r => (Json.bool true, r))
          else if c = 'f' then
            (expectChars ['a', 'l', 's', 'e'] cs).map (fun r => (Json.bool false, r))
          else if c = 'n' then
            (expectChars ['u', 'l', 'l'] cs).map (fun r => (Json.null, r))
          else if c = '-' || c.isDigit then
            (parseNum (c :: cs)).map (fun p => (Json.num p.1, p.2))
          else none

/-- Object members after the opening brace. -/
def parseObjBody (fuel : Nat) (s : List Char) : Option (Json × List Char) :=
  match fuel with
  | 0 => none
  | fuel + 1 =>
      match skipWs s with
      | [] => none
      | c :: cs =>
          if c = rbrace then some (Json.obj [], cs)
          else parseMembers fuel (c :: cs) []

/-- A nonempty comma-separated member list followed by the closing brace. -/
def parseMembers (fuel : Nat) (s : List Char) (acc : List (String × Json)) :
    Option (Json × List Char) :=
  match fuel with
  | 0 => none
  | fuel + 1 =>
      match skipWs s with
      | [] => none
      | c :: cs =>
          if c = dquote then
            match parseStrBody (cs.length + 1) cs with
            | none => none
            | some (key, rest) =>
                match skipWs rest with
                | ':' :: rest2 =>
                    match parseVal fuel rest2 with
                    | none => none
                    | some (v, rest3) =>
                        let acc2 := acc ++ [(String.mk key, v)]
                        match skipWs rest3 with
                        | ',' :: rest4 => parseMembers fuel rest4 acc2
                        | c2 :: rest4 =>
                            if c2 = rbrace then some (Json.obj acc2, rest4) else none
                        | [] => none
                | _ => none
          else none

/-- Array elements after the opening bracket. -/
def parseArrBody (fuel : Nat) (s : List Char) : Option (Json × List Char) :=
  match fuel with
  | 0 => none
  | fuel + 1 =>
      match skipWs s with
      | [] => none
      | ']' :: cs => some (Json.arr [], cs)
      | s' => parseElems fuel s' []

/-- A nonempty comma-separated element list followed by the closing bracket. -/
def parseElems (fuel : Nat) (s : List Char) (acc : List Json) :
    Option (Json × List Char) :=
  match fuel with
  | 0 => none
  | fuel + 1 =>
      match parseVal fuel s with
      | none => none
      | some (v, rest) =>
          match skipWs rest with
          | ',' :: rest2 => parseElems fuel rest2 (acc ++ [v])
          | ']' :: rest2 => some (Json.arr (acc ++ [v]), rest2)
          | _ => none

end

/-- `JSON.parse`: parse a complete JSON text; fails (returns `none`, where
JavaScript throws) on any syntax error or trailing garbage. -/
def jsonParse (s : String) : Option Json :=
  match parseVal (8 * s.length + 64) s.data with
  | some (v, rest) => if skipWs rest = [] then some v else none
  | none => none

/-! ## String scanning helpers (JavaScript regex / string methods) -/

/-- JavaScript word character (`\w` = ASCII letters, digits, underscore). -/
def isWordChar (c : Char) : Bool :=
  ('a' ≤ c ∧ c ≤ 'z') || ('A' ≤ c ∧ c ≤ 'Z') || c.isDigit || c = '_'

/-- Consume `pat` case-insensitively from the head of `s`, returning the rest. -/
def ciEat : List Char → List Char → Option (List Char)
  | [], s => some s
  | _ :: _, [] => none
  | p :: ps, c :: cs => if p.toLower = c.toLower then ciEat ps cs else none

/-- A `\b` word boundary holds after a word character at this point. -/
def boundaryAfter : List Char → Bool
  | [] => true
  | c :: _ => ¬ isWordChar c

/-- A `\b` word boundary holds before a word character preceded by `prev`. -/
def boundaryBefore : Option Char → Bool
  | none => true
  | some c => ¬ isWordChar c

/-- One alternative of a `\b(w1|w2|...)\b` pattern matches at this point
(the leading boundary is checked by the caller). -/
def altHere (alt : List Char) (s : List Char) : Bool :=
  match ciEat alt s with
  | some rest => boundaryAfter rest
  | none => false

/-- Scan for a match of `\b(alt1|alt2|...)\b` (case-insensitive), tracking
the previous character for the leading boundary. -/
def wordScan (alts : List (List Char)) (prev : Option Char) : List Char → Bool
  | [] => false
  | c :: cs =>
      (boundaryBefore prev && alts.any (fun a => altHere a (c :: cs)))
        || wordScan alts (some c) cs

/-- `RE.test(msg)` for a pattern of the form `/\b(w1|w2|...)\b/i`. -/
def wordTest (alts : List String) (msg : String) : Bool :=
  wordScan (alts.map String.data) none msg.data

/-- First occurrence of `pat` in `s` (exact match): the text before it and
the text after it. -/
def splitFirst (pat : List Char) : List Char → Option (List Char × List Char)
  | [] =>
      match expectChars pat [] with
      | some rest => some ([], rest)
      | none => none
  | c :: cs =>
      match expectChars pat (c :: cs) with
      | some rest => some ([], rest)
      | none => (splitFirst pat cs).map (fun p => (c :: p.1, p.2))

/-- `s.includes(pat)`. -/
def containsSub (pat : List Char) (s : List Char) : Bool :=
  (splitFirst pat s).isSome

/-- Remove every occurrence of `pat`, scanning left to right and resuming
after each removed occurrence (JavaScript `s.replace(/pat/g, "")` for a
literal pattern).  `fuel` bounds the iteration; callers pass the length. -/
def removeAllF : Nat → List Char → List Char → List Char
  | 0, _, s => s
  | fuel + 1, pat, s =>
      match splitFirst pat s with
      | none => s
      | some (before, after) => before ++ removeAllF fuel pat after

/-- `s.replace(/pat/g, "")` for a literal nonempty pattern. -/
def removeAll (pat : List Char) (s : List Char) : List Char :=
  removeAllF (s.length + 1) pat s

/-- JavaScript `s.trim()`. -/
def jsTrim (s : List Char) : List Char :=
  ((s.dropWhile Char.isWhitespace).reverse.dropWhile Char.isWhitespace).reverse

/-- The span from the first `{` to the last `}` of `s` (brace included),
when the last `}` comes after the first `{`: the candidate both
`text.match(/\{[\s\S]*\}/)` (greedy regex, `route.ts`) and the
`indexOf`/`lastIndexOf` slicing of `part_016` produce. -/
def braceSlice (s : List Char) : Option (List Char) :=
  match splitFirst [lbrace] s with
  | none => none
  | some (_, afterFirst) =>
      match splitFirst [rbrace] afterFirst.reverse with
      | none => none
      | some (revTail, revInitR) =>
          let _ := revTail
          some (lbrace :: revInitR.reverse ++ [rbrace])

/-! ## `src/app/api/chat/route.ts` (router variant): constants and router -/

/-- `NO_ANSWER_FALLBACK` (route.ts line 20). -/
def NO_ANSWER_FALLBACK : String :=
  "I am sorry, I have access to only publicly available City of Rancho Cordova and SMUD data, and I won't be able to answer any questions outside my scope."

/-- Alternatives of `SQL_INTENT_PATTERN` (route.ts line 23). -/
def sqlIntentAlts : List String :=
  ["count", "how many", "total", "average", "avg", "sum", "trend", "stats",
   "statistics", "plot", "graph", "chart", "visualize", "compare", "highest",
   "lowest", "usage", "kwh", "consumption", "breakdown", "reasons"]

/-- `SQL_INTENT_PATTERN.test(message)`. -/
def sqlIntentTest (message : String) : Bool := wordTest sqlIntentAlts message

/-- Alternatives of `VECTOR_OVERRIDE_PATTERN` (route.ts line 26). -/
def vectorOverrideAlts : List String :=
  ["rebate", "incentive", "program", "dishwasher", "washing", "dryer",
   "appliance", "how to", "ways to", "reduce", "save", "contact", "manager",
   "location", "address", "phone", "email", "process", "steps", "apply",
   "permit"]

/-- `VECTOR_OVERRIDE_PATTERN.test(message)`. -/
def vectorOverrideTest (message : String) : Bool :=
  wordTest vectorOverrideAlts message

/-- `/\bCL0*\d+\b/i` matches starting at this point: `CL` (any case), then
one or more digits (`0*\d+` is equivalent to `\d+`), whose maximal run is
followed by a word boundary. -/
def ticketAt : List Char → Bool
  | c1 :: c2 :: rest =>
      if c1.toLower = 'c' ∧ c2.toLower = 'l' then
        let (ds, rest2) := digitRun rest
        ds ≠ [] && boundaryAfter rest2
      else false
  | _ => false

/-- Scan for a `TICKET_ID_PATTERN` match, tracking the previous character. -/
def ticketScan (prev : Option Char) : List Char → Bool
  | [] => false
  | c :: cs => (boundaryBefore prev && ticketAt (c :: cs)) || ticketScan (some c) cs

/-- `TICKET_ID_PATTERN.test(message)` (route.ts line 28). -/
def ticketTest (message : String) : Bool := ticketScan none message.data

/-- The two request-handling paths of the router. -/
inductive RoutePath where
  | analytics
  | semantic
deriving Repr, BEq, DecidableEq

/-- The dispatch decision of `POST` (route.ts line 264):
`isTicketLookup || (isAnalytics && !isVectorOverride)` selects the
analytics (SQL) handler, everything else the semantic (vector) handler. -/
def routerPath (message : String) : RoutePath :=
  if ticketTest message || (sqlIntentTest message && !vectorOverrideTest message)
  then .analytics else .semantic

/-! ## Answer extraction -/

/-- Parse a candidate span and keep it only when tagged `type === 'chart'`
(route.ts lines 61-66). -/
def parseCand (cand : List Char) : Option Json :=
  match jsonParse (String.mk cand) with
  | none => none
  | some parsed =>
      match getField parsed "type" with
      | some (Json.str t) => if t = "chart" then some parsed else none
      | _ => none

/-- `text.match(/```json\n([\s\S]*?)\n```/)`: leftmost fenced block with a
lazy interior; returns (full match, capture group 1). -/
def fencedLazy (s : List Char) : Option (List Char × List Char) :=
  match splitFirst ("```json\n".data) s with
  | none => none
  | some (_, after) =>
      match splitFirst ("\n```".data) after with
      | none => none
      | some (interior, _) =>
          some ("```json\n".data ++ interior ++ "\n```".data, interior)

/-- `extractChartJson` (route.ts lines 58-67): try the fenced-block regex,
fall back to the greedy brace regex; `jsonMatch[1] || jsonMatch[0]` picks
the capture group when present and nonempty; parse and keep only objects
tagged `type === 'chart'`; any parse error yields `null`. -/
def extractChartJson (text : String) : Option Json :=
  match fencedLazy text.data with
  | some (full, interior) =>
      parseCand (if interior = [] then full else interior)
  | none =>
      match braceSlice text.data with
      | some m0 => parseCand m0
      | none => none

/-! ## Response data model -/

/-- One entry of the `sources` array of a response. -/
structure SourceEntry where
  source : Option String
  score : Option Rat
deriving Repr, BEq, DecidableEq

/-- The JSON body returned by a handler on HTTP 200:
`sources = none` models a returned object with no `sources` key at all
(route.ts returns `{ response, chartData }` on several paths). -/
structure ChatResult where
  response : String
  chartData : Option Json
  sources : Option (List SourceEntry)
deriving Repr, BEq

/-- A Pinecone retrieval match as the handlers consume it:
`metadata?.text` (kept only when it is a string), `metadata?.source`,
and the similarity `score`. -/
structure RMatch where
  text : Option String
  source : Option String
  score : Option Rat
deriving Repr, BEq, DecidableEq

/-- JavaScript `v || d` for an optional string (`none` = undefined,
`""` is falsy). -/
def jsOrStr (v : Option String) (d : String) : String :=
  match v with
  | some s => if s = "" then d else s
  | none => d

/-- JavaScript `v || d` for an optional JSON value. -/
def jsOrJson (v : Option Json) (d : Json) : Json :=
  match v with
  | some x => if jsTruthy x then x else d
  | none => d

/-! ## `generateEmbedding` (route.ts lines 35-55) -/

/-- Shape of a successful embedding-endpoint JSON payload: a nested array
of rows, or a flat numeric array.  (Non-array payloads are degenerate and
out of the shapes the endpoint produces.) -/
inductive EmbPayload where
  | nested (rows : List (List Rat))
  | flat (v : List Rat)
deriving Repr

/-- Outcome of the embedding fetch: non-OK HTTP status, a thrown
exception, or a JSON payload. -/
inductive EmbResponse where
  | httpError
  | exn
  | payload (p : EmbPayload)
deriving Repr

/-- `generateEmbedding`: returns `[]` when the response is not OK or the
call throws; otherwise `Array.isArray(result) && Array.isArray(result[0])
? result[0] : result` (an empty nested payload has no first row, so the
whole — empty — array is returned). -/
def generateEmbedding : EmbResponse → List Rat
  | .httpError => []
  | .exn => []
  | .payload (.nested []) => []
  | .payload (.nested (r :: _)) => r
  | .payload (.flat v) => v

/-! ## `handleSemanticQuery` (route.ts lines 190-249) -/

/-- The values the semantic handler's external calls return: the embedding
vector, the Pinecone matches (`searchRes.matches || []`), and the chat
completion content (`completion.choices[0]?.message?.content`). -/
structure SemanticOracle where
  embedding : List Rat
  queryMatches : List RMatch
  llmContent : Option String
deriving Repr

/-- `handleSemanticQuery`: empty embedding → fixed knowledge-base error
(no `sources` key); no matches → `NO_ANSWER_FALLBACK` (no `sources` key);
otherwise the LLM text (or the fallback when empty/missing), `chartData:
null`, and the first three matches as sources with
`m.metadata?.source || "Doc"`. -/
def handleSemanticQuery (o : SemanticOracle) : ChatResult :=
  if o.embedding.length = 0 then
    { response := "I'm having trouble accessing my knowledge base.",
      chartData := none, sources := none }
  else if o.queryMatches.length = 0 then
    { response := NO_ANSWER_FALLBACK, chartData := none, sources := none }
  else
    { response := jsOrStr o.llmContent NO_ANSWER_FALLBACK,
      chartData := none,
      sources := some ((o.queryMatches.take 3).map
        (fun m => { source := some (jsOrStr m.source "Doc"), score := m.score })) }

/-! ## `handleAnalyticsQuery` (route.ts lines 70-187) -/

/-- `query.replace(/```sql|```/gi, '')`: global alternation removal,
longer alternative first, case-insensitive. -/
def removeSqlFences : Nat → List Char → List Char
  | 0, s => s
  | fuel + 1, s =>
      match s with
      | [] => []
      | c :: cs =>
          match ciEat ("```sql".data) (c :: cs) with
          | some rest => removeSqlFences fuel rest
          | none =>
              match ciEat ("```".data) (c :: cs) with
              | some rest => removeSqlFences fuel rest
              | none => c :: removeSqlFences fuel cs

/-- `.replace(/;+\s*$/, '')`: strip one trailing run of semicolons
followed only by whitespace. -/
def stripTrailingSemis (s : List Char) : List Char :=
  let r := s.reverse
  let r2 := r.dropWhile Char.isWhitespace
  match r2 with
  | ';' :: _ => (r2.dropWhile (fun c => c = ';')).reverse
  | _ => s

/-- The SQL string after route.ts line 104:
`(content || "").replace(/```sql|```/gi, '').trim().replace(/;+\s*$/, '')`. -/
def cleanSqlQuery (content : Option String) : List Char :=
  let raw := (jsOrStr content "").data
  stripTrailingSemis (jsTrim (removeSqlFences (raw.length + 1) raw))

/-- JavaScript string coercion of a JSON value, as in a template literal:
`null`, booleans, numbers (exact for integers; non-integral rationals are
printed as rationals, an approximation of JS float printing), strings
verbatim, arrays comma-joined with null elements empty, objects as
`[object Object]`. -/
def jsToStrF : Nat → Json → String
  | 0, _ => ""
  | fuel + 1, v =>
      match v with
      | .null => "null"
      | .bool b => if b then "true" else "false"
      | .num q => if q.den = 1 then toString q.num else toString q
      | .str s => s
      | .obj _ => "[object Object]"
      | .arr es =>
          String.intercalate ","
            (es.map (fun e =>
              match e with
              | .null => ""
              | x => jsToStrF fuel x))

mutual

/-- A computable structural size of a JSON value, used as recursion fuel. -/
def jsonSize : Json → Nat
  | .null | .bool _ | .num _ | .str _ => 1
  | .arr es => 1 + jsonSizeList es
  | .obj fields => 1 + jsonSizeFields fields

/-- Size of a list of JSON values. -/
def jsonSizeList : List Json → Nat
  | [] => 0
  | e :: rest => jsonSize e + jsonSizeList rest

/-- Size of an object field list. -/
def jsonSizeFields : List (String × Json) → Nat
  | [] => 0
  | (_, e) :: rest => jsonSize e + jsonSizeFields rest

end

/-- String coercion with enough fuel for the whole value. -/
def jsTemplate (v : Json) : String := jsToStrF (jsonSize v + 1) v

/-- Greedy global `.replace(/```json[\s\S]*```/g, '')`: at most one match
(from the leftmost ` ```json ` to the last ` ``` ` after it); no closing
fence means no match. -/
def removeFencedGreedy (s : List Char) : List Char :=
  match splitFirst ("```json".data) s with
  | none => s
  | some (before, after) =>
      match splitFirst ("```".data) after.reverse with
      | none => s
      | some (revBefore, _) => before ++ revBefore.reverse

/-- Greedy global `.replace(/\{[\s\S]*\}/g, '')`: removes the span from
the first `{` to the last `}` when the latter comes after the former
(at most one match is possible). -/
def removeBraceSpan (s : List Char) : List Char :=
  match splitFirst [lbrace] s with
  | none => s
  | some (before, afterFirst) =>
      match splitFirst [rbrace] afterFirst.reverse with
      | none => s
      | some (revBefore, _) => before ++ revBefore.reverse

/-- Try alternatives in order; the first whose continuation succeeds wins
(regex alternation with backtracking). -/
def tryAlts (alts : List (List Char)) (s : List Char)
    (k : List Char → Option (List Char)) : Option (List Char) :=
  match alts with
  | [] => none
  | a :: rest =>
      match ciEat a s with
      | some r =>
          match k r with
          | some out => some out
          | none => tryAlts rest s k
      | none => tryAlts rest s k

/-- A match of
`/(Here is|I have generated|This is) (a|the) (JSON)?\s*(chart|graph|visualization|response).*?:?/i`
starting at this position; returns the input after the match.  The lazy
`.*?` always matches empty (the following `:?` can match empty), so the
match ends after the keyword, consuming one immediately following `:`. -/
def phraseAt (s : List Char) : Option (List Char) :=
  tryAlts (["here is", "i have generated", "this is"].map String.data) s (fun r1 =>
    match r1 with
    | ' ' :: r2 =>
        tryAlts (["a", "the"].map String.data) r2 (fun r3 =>
          match r3 with
          | ' ' :: r4 =>
              let finish : List Char → Option (List Char) := fun r5 =>
                let r6 := r5.dropWhile Char.isWhitespace
                tryAlts
                  (["chart", "graph", "visualization", "response"].map String.data)
                  r6 (fun r7 =>
                    match r7 with
                    | ':' :: r8 => some r8
                    | _ => some r7)
              match ciEat ("json".data) r4 with
              | some r5 =>
                  match finish r5 with
                  | some out => some out
                  | none => finish r4
              | none => finish r4
          | _ => none)
    | _ => none)

/-- A match of `/[*#]*\s*KW\s*[*#]*:?/i` starting at this position (used
with `KW` = `JSON Chart` and `Data Insight`); maximal greedy runs are
exact here since the character classes do not overlap the keyword. -/
def hashPhraseAt (kw : List Char) (s : List Char) : Option (List Char) :=
  let s1 := s.dropWhile (fun c => c = '*' || c = '#')
  let s2 := s1.dropWhile Char.isWhitespace
  match ciEat kw s2 with
  | none => none
  | some r =>
      let r1 := r.dropWhile Char.isWhitespace
      let r2 := r1.dropWhile (fun c => c = '*' || c = '#')
      match r2 with
      | ':' :: r3 => some r3
      | _ => some r2

/-- Non-global `.replace(re, '')`: remove the leftmost match, if any. -/
def scanRemove (matchAt : List Char → Option (List Char)) : List Char → List Char
  | [] =>
      match matchAt [] with
      | some r => r
      | none => []
  | c :: cs =>
      match matchAt (c :: cs) with
      | some rest => rest
      | none => c :: scanRemove matchAt cs

/-- The visible-text cleaning pipeline of `handleAnalyticsQuery`
(route.ts lines 176-182): strip fenced JSON, strip raw JSON objects,
strip lead-in phrases and headings, trim. -/
def cleanSummaryText (t : String) : String :=
  String.mk (jsTrim
    (scanRemove (hashPhraseAt ("data insight".data))
      (scanRemove (hashPhraseAt ("json chart".data))
        (scanRemove phraseAt
          (removeBraceSpan
            (removeFencedGreedy t.data))))))

/-- `Array.isArray(data) && data.length === 0`. -/
def isEmptyArr : Json → Bool
  | .arr es => es.isEmpty
  | _ => false

/-- The values the analytics handler's external calls return: the
SQL-generation completion content, the Supabase RPC outcome
(`{ data, error }`: a transport error flag and the `data` value), and the
summary completion content. -/
structure AnalyticsOracle where
  sqlContent : Option String
  rpcError : Bool
  rpcData : Json
  summaryContent : Option String
deriving Repr

/-- `handleAnalyticsQuery` after the external calls (route.ts lines
103-186): empty generated SQL throws; a transport error and an embedded
logic-error field are terminal fixed-text failures with `chartData: null`
and no `sources` key; falsy or empty-array data is the distinct
"no records" outcome; otherwise extract a chart from the summary text,
clean the visible text, and return it with the fixed
`"Live Database"` source. -/
def handleAnalyticsQuery (o : AnalyticsOracle) : Except String ChatResult :=
  if cleanSqlQuery o.sqlContent = [] then
    .error "Failed to generate SQL"
  else if o.rpcError then
    .ok { response := "I encountered a technical error connecting to the database.",
          chartData := none, sources := none }
  else if jsTruthy o.rpcData && !isArr o.rpcData
      && jsTruthyO (getField o.rpcData "error") then
    .ok { response := "I couldn't process that query. Database says: "
            ++ jsTemplate ((getField o.rpcData "error").getD Json.null),
          chartData := none, sources := none }
  else if !jsTruthy o.rpcData || isEmptyArr o.rpcData then
    .ok { response := "I checked the database but found no records matching your criteria.",
          chartData := none, sources := none }
  else
    let responseText := jsOrStr o.summaryContent ""
    let chartData := extractChartJson responseText
    let cleanText := cleanSummaryText responseText
    let cleanText :=
      if cleanText = "" && chartData.isSome
      then "I have visualized the data for you above." else cleanText
    .ok { response := cleanText, chartData := chartData,
          sources := some [{ source := some "Live Database", score := some 1 }] }

/-! ## `POST` (route.ts lines 252-278) -/

/-- The external-call outcomes both paths might consume. -/
structure Oracles where
  analytics : AnalyticsOracle
  semantic : SemanticOracle
deriving Repr

/-- An HTTP response of the route: a 200 JSON body, the 400
`Message required` rejection, or the 500 produced by the catch-all. -/
inductive ApiResponse where
  | ok (result : ChatResult)
  | badRequest
  | serverError (msg : String)
deriving Repr, BEq

/-- `POST`: reject empty messages, then dispatch on `routerPath`; a thrown
error becomes a 500. -/
def POST (message : String) (o : Oracles) : ApiResponse :=
  if message = "" then .badRequest
  else
    match routerPath message with
    | .analytics =>
        match handleAnalyticsQuery o.analytics with
        | .ok r => .ok r
        | .error e => .serverError e
    | .semantic => .ok (handleSemanticQuery o.semantic)

/-! ## Chart extraction of `src/unnamed/part_016` (lines 144-161) -/

/-- The outcome of the parse-and-clean block: the visible text (`finalText`
holds whatever JavaScript value is assigned: the raw string, or
`parsed.explanation` which need not be a string) and the chart payload. -/
structure P16Result where
  finalText : Json
  chartData : Option Json
deriving Repr, BEq

/-- `rawContent.includes('"type": "chart"') ||
rawContent.includes('"type":"chart"')`. -/
def p16HasChartTag (raw : String) : Bool :=
  containsSub ("\"type\": \"chart\"".data) raw.data
    || containsSub ("\"type\":\"chart\"".data) raw.data

/-- The chart-extraction block of `part_016`: when the chart tag occurs,
strip code fences, take the span from the first `{` to the last `}`,
`JSON.parse` it, and accept it as the chart when `parsed.data` and
`parsed.chartType` are truthy, setting the visible text to
`parsed.explanation || "Here is the visualization you requested."`; on any
failure (missing braces, parse error, falsy fields) keep the raw text and
no chart. -/
def p16Extract (rawContent : String) : P16Result :=
  if p16HasChartTag rawContent then
    let cleanContent :=
      jsTrim (removeAll ("```".data) (removeAll ("```json".data) rawContent.data))
    match braceSlice cleanContent with
    | none => { finalText := Json.str rawContent, chartData := none }
    | some jsonChars =>
        match jsonParse (String.mk jsonChars) with
        | none => { finalText := Json.str rawContent, chartData := none }
        | some parsed =>
            if jsTruthyO (getField parsed "data")
                && jsTruthyO (getField parsed "chartType") then
              { finalText := jsOrJson (getField parsed "explanation")
                  (Json.str "Here is the visualization you requested."),
                chartData := some parsed }
            else { finalText := Json.str rawContent, chartData := none }
  else { finalText := Json.str rawContent, chartData := none }

/-! ## Match post-filtering of `src/unnamed/part_013` (lines 82-108) -/

/-- Alternatives of `isChartRequest` (part_013 line 83). -/
def p13ChartAlts : List String :=
  ["chart", "graph", "plot", "compare", "trend", "distribution", "pie", "bar"]

/-- Alternatives of `isNumericQuery` (part_013 line 86). -/
def p13NumericAlts : List String :=
  ["kwh", "usage", "average", "total", "month", "year", "rate", "consumption"]

/-- Alternatives of `isDirectoryQuery` (part_013 line 89). -/
def p13DirectoryAlts : List String :=
  ["phone", "email", "contact", "department", "office", "address"]

/-- Three consecutive decimal digits at the head of the input. -/
def threeDigits : List Char → Option (List Char)
  | a :: b :: c :: rest =>
      if a.isDigit && b.isDigit && c.isDigit then some rest else none
  | _ => none

/-- One alternative of `/@|\d{3}[-.\s]?\d{3}|suite|ave|street|st\b/i`
matches at this position. -/
def dirContentAt (s : List Char) : Bool :=
  (match s with
   | '@' :: _ => true
   | _ => false)
  || (match threeDigits s with
      | some r =>
          (threeDigits r).isSome
            || (match r with
                | sep :: r2 =>
                    (sep = '-' || sep = '.' || sep.isWhitespace)
                      && (threeDigits r2).isSome
                | [] => false)
      | none => false)
  || (ciEat ("suite".data) s).isSome
  || (ciEat ("ave".data) s).isSome
  || (ciEat ("street".data) s).isSome
  || (match ciEat ("st".data) s with
      | some r => boundaryAfter r
      | none => false)

/-- `.test` of the directory-content regex: a match at any position. -/
def dirContentScan : List Char → Bool
  | [] => false
  | c :: cs => dirContentAt (c :: cs) || dirContentScan cs

/-- `/\d/.test(text)` guarded by `typeof text === 'string'`. -/
def p13NumericPred (m : RMatch) : Bool :=
  match m.text with
  | some t => t.data.any Char.isDigit
  | none => false

/-- The directory-content predicate on a match. -/
def p13DirectoryPred (m : RMatch) : Bool :=
  match m.text with
  | some t => dirContentScan t.data
  | none => false

/-- `filteredMatches` after both `if` statements of part_013 (lines
91-105): the numeric filter applies when the message implies numbers or a
chart; the directory filter, tested afterwards and applied to the
*original* `matches`, overwrites it when the message implies a
contact lookup. -/
def p13Filtered (message : String) (ms : List RMatch) : List RMatch :=
  let f1 :=
    if wordTest p13NumericAlts message || wordTest p13ChartAlts message
    then ms.filter p13NumericPred
    else ms
  if wordTest p13DirectoryAlts message
  then ms.filter p13DirectoryPred
  else f1

/-- `usableMatches = filteredMatches.length > 0 ? filteredMatches :
matches` (part_013 lines 107-108). -/
def p13Usable (message : String) (ms : List RMatch) : List RMatch :=
  let f := p13Filtered message ms
  if f.length > 0 then f else ms

/-! ## Spec-modelled intent classifier (privacy blocklist)

The specification (section 4.1) describes an `inDomain` check: a message
is in-domain iff it matches a domain-keyword pattern AND does not match a
privacy-sensitive (PII) blocklist pattern, and an out-of-domain message is
answered with the fixed fallback string and no chart.  No file under
`src/` contains such a blocklist (no privacy pattern occurs anywhere in
the sources), so this classifier is modelled from the spec alone,
parametrically in the two patterns. -/

/-- Modelled from the spec: the domain-keyword pattern and the
privacy-sensitive (PII) blocklist pattern of the intent classifier
(spec section 4.1); the concrete keyword lists are absent from `src/`,
so they are parameters. -/
structure ClassifierPatterns where
  domainMatch : String → Bool
  privacyMatch : String → Bool

/-- Modelled from the spec: `inDomain` is true iff the message matches the
domain-keyword pattern and does not match the privacy blocklist
(privacy match takes precedence). -/
def specInDomain (P : ClassifierPatterns) (message : String) : Bool :=
  P.domainMatch message && !P.privacyMatch message

/-- Modelled from the spec: out-of-domain messages short-circuit to the
fixed fallback string with a null chart; in-domain messages proceed to
the normal handler result. -/
def specGuard (P : ClassifierPatterns) (message : String)
    (handled : ChatResult) : ChatResult :=
  if specInDomain P message then handled
  else { response := NO_ANSWER_FALLBACK, chartData := none, sources := none }

/-! ## Claim theorems -/

/-- **C2** counterexample: the message `"how to count usage for CL0123"`
matches both the SQL-analytics intent pattern and the vector-override
pattern, yet the router dispatches it to the analytics (generated-SQL)
path, because the ticket-ID test fires first. -/
theorem c2_counterexample :
    sqlIntentTest "how to count usage for CL0123" = true
    ∧ vectorOverrideTest "how to count usage for CL0123" = true
    ∧ ticketTest "how to count usage for CL0123" = true
    ∧ routerPath "how to count usage for CL0123" = RoutePath.analytics :=
  ⟨by decide, by decide, by decide, by decide⟩

/-- **C2** (amended): every message matching both the SQL-analytics intent
pattern and the vector-override pattern is dispatched to the semantic
(vector) path, provided it does not also contain a ticket-ID-shaped token;
a ticket ID takes precedence and forces the analytics path. -/
theorem c2_override_wins_without_ticket (message : String)
    (hsql : sqlIntentTest message = true)
    (hover : vectorOverrideTest message = true)
    (hticket : ticketTest message = false) :
    routerPath message = RoutePath.semantic := by
  unfold routerPath
  rw [hsql, hover, hticket]
  rfl

/-- **C2** witness: a both-patterns, no-ticket message routes semantic. -/
theorem c2_witness :
    routerPath "how to reduce my usage" = RoutePath.semantic :=
  c2_override_wins_without_ticket "how to reduce my usage"
    (by decide) (by decide) (by decide)

/-- **C3**: for every classifier instance and every message matching the
privacy-sensitive (PII) blocklist pattern, the guarded response is the
single fixed fallback string with a null chart — whatever the
domain-keyword pattern says (privacy dominates), and whatever the handler
would have answered. -/
theorem c3_privacy_dominates (P : ClassifierPatterns) (message : String)
    (handled : ChatResult)
    (hpriv : P.privacyMatch message = true) :
    specGuard P message handled =
      { response := NO_ANSWER_FALLBACK, chartData := none, sources := none }
    ∧ specInDomain P message = false := by
  have hdom : specInDomain P message = false := by
    unfold specInDomain
    rw [hpriv]
    simp
  refine ⟨?_, hdom⟩
  unfold specGuard
  rw [hdom]
  simp

/-- A concrete classifier instance for the **C3** witness: the domain
pattern looks for `bill`, the privacy blocklist for `ssn`. -/
def c3Patterns : ClassifierPatterns :=
  { domainMatch := fun m => containsSub ("bill".data) m.data,
    privacyMatch := fun m => containsSub ("ssn".data) m.data }

/-- A stand-in handler answer used by the **C3** witness. -/
def c3Handled : ChatResult :=
  { response := "the bill is 42 dollars", chartData := none, sources := none }

/-- **C3** witness: a message that matches the domain pattern *and* the
privacy blocklist is still answered with the fixed fallback. -/
theorem c3_witness :
    specGuard c3Patterns "what is the ssn on my neighbor bill" c3Handled =
      { response := NO_ANSWER_FALLBACK, chartData := none, sources := none }
    ∧ specInDomain c3Patterns "what is the ssn on my neighbor bill" = false :=
  c3_privacy_dominates c3Patterns "what is the ssn on my neighbor bill"
    c3Handled (by decide)

/-- **C6**: on the part_013 vector path, for every message and nonempty
match list, the usable match set after the numeric/directory post-filter
is never empty, and when the filter eliminates every match the unfiltered
match list is used unchanged. -/
theorem c6_post_filter_never_empties (message : String) (ms : List RMatch)
    (h : ms ≠ []) :
    p13Usable message ms ≠ []
    ∧ (p13Filtered message ms = [] → p13Usable message ms = ms) := by
  constructor
  · unfold p13Usable
    by_cases hf : (p13Filtered message ms).length > 0
    · rw [if_pos hf]
      intro he
      rw [he] at hf
      simp at hf
    · rw [if_neg hf]
      exact h
  · intro hfe
    unfold p13Usable
    rw [hfe]
    simp

/-- The match list of the **C6** witness: one match whose text has no
digit, so the numeric post-filter eliminates everything. -/
def c6Matches : List RMatch :=
  [{ text := some "no digits here", source := some "Doc", score := some 1 }]

/-- **C6** witness: on the numeric-intent message `"average kwh"` the
filter empties the match set, and the unfiltered set is used. -/
theorem c6_witness :
    p13Usable "average kwh" c6Matches ≠ []
    ∧ p13Usable "average kwh" c6Matches = c6Matches :=
  ⟨(c6_post_filter_never_empties "average kwh" c6Matches (by decide)).1,
   (c6_post_filter_never_empties "average kwh" c6Matches (by decide)).2 (by decide)⟩

/-- The semantic-handler oracle of the **C7** counterexample: a successful
run whose LLM answer contains a ticket-ID-shaped token. -/
def c7Oracle : SemanticOracle :=
  { embedding := [1],
    queryMatches := [{ text := some "t", source := some "Doc", score := some 1 }],
    llmContent := some "Ticket CL0092 was resolved." }

/-- **C7** counterexample: the handler's visible response text contains
the ticket-ID-shaped token `CL0092` verbatim — no redaction marker is
substituted anywhere. -/
theorem c7_counterexample :
    (handleSemanticQuery c7Oracle).response = "Ticket CL0092 was resolved."
    ∧ ticketTest (handleSemanticQuery c7Oracle).response = true :=
  ⟨rfl, by decide⟩

/-- **C7** (amended): no ticket-ID redaction is performed: the ticket
pattern is only tested against the incoming message for routing, and on a
successful retrieval the semantic handler returns the LLM text verbatim,
so ticket-ID-shaped tokens in it reach the visible response text. -/
theorem c7_no_redaction (o : SemanticOracle) (t : String)
    (hemb : o.embedding ≠ [])
    (hm : o.queryMatches ≠ [])
    (hc : o.llmContent = some t)
    (hne : t ≠ "") :
    (handleSemanticQuery o).response = t := by
  have h1 : ¬ o.embedding.length = 0 := by
    simpa [List.length_eq_zero] using hemb
  have h2 : ¬ o.queryMatches.length = 0 := by
    simpa [List.length_eq_zero] using hm
  unfold handleSemanticQuery
  rw [if_neg h1, if_neg h2]
  simp [jsOrStr, hc, hne]

/-- The oracle of the **C7** witness. -/
def c7WitnessOracle : SemanticOracle :=
  { embedding := [1, 2],
    queryMatches := [{ text := some "t", source := none, score := none }],
    llmContent := some "Your request CL0007 is open." }

/-- **C7** witness: a concrete successful run returns the LLM text —
ticket token included — unchanged. -/
theorem c7_witness :
    (handleSemanticQuery c7WitnessOracle).response = "Your request CL0007 is open." :=
  c7_no_redaction c7WitnessOracle "Your request CL0007 is open."
    (by decide) (by decide) rfl (by decide)

/-- **C8** counterexample: when embedding generation fails (the embedder
returns an empty vector, as it does on an HTTP error), the semantic
handler answers with the distinct knowledge-base error string, which is
NOT the single fixed fallback string shared by the other cases. -/
theorem c8_counterexample :
    generateEmbedding EmbResponse.httpError = []
    ∧ (handleSemanticQuery
        { embedding := [],
          queryMatches := [{ text := some "t", source := some "Doc", score := some 1 }],
          llmContent := some "text" }).response
        = "I'm having trouble accessing my knowledge base."
    ∧ "I'm having trouble accessing my knowledge base." ≠ NO_ANSWER_FALLBACK :=
  ⟨rfl, rfl, by decide⟩

/-- **C8** (amended): whenever the embedder comes back empty (HTTP error,
thrown exception, or an empty payload), the semantic handler responds with
its own fixed knowledge-base error message, a string different from the
shared `NO_ANSWER_FALLBACK` constant. -/
theorem c8_embedding_failure_distinct (r : EmbResponse) (ms : List RMatch)
    (c : Option String)
    (hfail : generateEmbedding r = []) :
    (handleSemanticQuery
        { embedding := generateEmbedding r, queryMatches := ms,
          llmContent := c }).response
      = "I'm having trouble accessing my knowledge base."
    ∧ "I'm having trouble accessing my knowledge base." ≠ NO_ANSWER_FALLBACK := by
  constructor
  · unfold handleSemanticQuery
    simp [hfail]
  · decide

/-- **C8** witness: the HTTP-error case concretely. -/
theorem c8_witness :
    (handleSemanticQuery
        { embedding := generateEmbedding EmbResponse.exn, queryMatches := [],
          llmContent := none }).response
      = "I'm having trouble accessing my knowledge base."
    ∧ "I'm having trouble accessing my knowledge base." ≠ NO_ANSWER_FALLBACK :=
  c8_embedding_failure_distinct EmbResponse.exn [] none rfl

/-- **C10**: every response of the semantic (vector) handler carries
`chartData = null`, and in the router variant a 200 response with a
non-null chart can only come from a message the router sent down the
analytics path. -/
theorem c10_chart_only_from_analytics :
    (∀ o : SemanticOracle, (handleSemanticQuery o).chartData = none)
    ∧ (∀ (message : String) (o : Oracles) (r : ChatResult),
        POST message o = ApiResponse.ok r → r.chartData ≠ none →
        routerPath message = RoutePath.analytics) := by
  have hsem : ∀ o : SemanticOracle, (handleSemanticQuery o).chartData = none := by
    intro o
    unfold handleSemanticQuery
    by_cases h1 : o.embedding.length = 0
    · rw [if_pos h1]
    · rw [if_neg h1]
      by_cases h2 : o.queryMatches.length = 0
      · rw [if_pos h2]
      · rw [if_neg h2]
  refine ⟨hsem, ?_⟩
  intro message o r hpost hchart
  unfold POST at hpost
  by_cases hm : message = ""
  · rw [if_pos hm] at hpost
    exact absurd hpost (by simp)
  · rw [if_neg hm] at hpost
    cases hp : routerPath message with
    | analytics => rfl
    | semantic =>
        rw [hp] at hpost
        have heq : handleSemanticQuery o.semantic = r := by
          simpa using hpost
        rw [← heq] at hchart
        exact absurd (hsem o.semantic) hchart

/-- The analytics oracle of the **C10** witness: a successful SQL run whose
summary is exactly a chart-tagged JSON object. -/
def c10Analytics : AnalyticsOracle :=
  { sqlContent := some "SELECT 1",
    rpcError := false,
    rpcData := Json.arr [Json.obj [("n", Json.num 1)]],
    summaryContent := some "\x7b\"type\":\"chart\"\x7d" }

/-- The (unused) semantic oracle of the **C10** witness. -/
def c10Semantic : SemanticOracle :=
  { embedding := [], queryMatches := [], llmContent := none }

/-- The 200 body the **C10** witness run produces: chart present. -/
def c10Result : ChatResult :=
  { response := "I have visualized the data for you above.",
    chartData := some (Json.obj [("type", Json.str "chart")]),
    sources := some [{ source := some "Live Database", score := some 1 }] }

/-- **C10** witness: a concrete run with a non-null chart is indeed routed
to the analytics path. -/
theorem c10_witness :
    routerPath "count the tickets" = RoutePath.analytics :=
  c10_chart_only_from_analytics.2 "count the tickets"
    { analytics := c10Analytics, semantic := c10Semantic } c10Result
    (by rfl) (by simp [c10Result])

/-- **C5**: on the analytics path (with nonempty generated SQL), a
transport error from the RPC is terminal with its fixed message and null
chart; a truthy non-array `data` carrying a truthy `error` field is
terminal with the embedded message and null chart; an empty-array result
is the distinct valid "no records" outcome, whose text differs from the
error texts and from the fallback; and the analytics result never consults
the semantic (vector) oracle — no fallback to the vector path. -/
theorem c5_analytics_failures_terminal (o : AnalyticsOracle)
    (hq : cleanSqlQuery o.sqlContent ≠ []) :
    (o.rpcError = true →
      handleAnalyticsQuery o = Except.ok
        { response := "I encountered a technical error connecting to the database.",
          chartData := none, sources := none })
    ∧ (∀ e, o.rpcError = false → jsTruthy o.rpcData = true →
        isArr o.rpcData = false → getField o.rpcData "error" = some e →
        jsTruthy e = true →
        handleAnalyticsQuery o = Except.ok
          { response := "I couldn't process that query. Database says: "
              ++ jsTemplate e,
            chartData := none, sources := none })
    ∧ (o.rpcError = false → o.rpcData = Json.arr [] →
        handleAnalyticsQuery o = Except.ok
          { response := "I checked the database but found no records matching your criteria.",
            chartData := none, sources := none })
    ∧ ("I checked the database but found no records matching your criteria."
          ≠ "I encountered a technical error connecting to the database."
        ∧ "I checked the database but found no records matching your criteria."
          ≠ NO_ANSWER_FALLBACK)
    ∧ (∀ (message : String) (s s2 : SemanticOracle),
        routerPath message = RoutePath.analytics → message ≠ "" →
        POST message { analytics := o, semantic := s }
          = POST message { analytics := o, semantic := s2 }) := by
  refine ⟨?_, ?_, ?_, ⟨by decide, by decide⟩, ?_⟩
  · intro he
    simp [handleAnalyticsQuery, hq, he]
  · intro e he ht hia hg hte
    simp [handleAnalyticsQuery, hq, he, ht, hia, hg, jsTruthyO, hte]
  · intro he hd
    simp [handleAnalyticsQuery, hq, he, hd, jsTruthy, isArr, isEmptyArr]
  · intro message s s2 hp hm
    simp [POST, hm, hp]

/-- The analytics oracle of the **C5** witness: a transport error. -/
def c5Oracle : AnalyticsOracle :=
  { sqlContent := some "SELECT 1", rpcError := true, rpcData := Json.null,
    summaryContent := none }

/-- **C5** witness: a concrete transport error is terminal. -/
theorem c5_witness :
    handleAnalyticsQuery c5Oracle = Except.ok
      { response := "I encountered a technical error connecting to the database.",
        chartData := none, sources := none } :=
  (c5_analytics_failures_terminal c5Oracle (by decide)).1 rfl

/-- The raw text of the **C1** counterexample: surrounding prose with a
stray brace pair, then a syntactically valid chart object with the
recognized chartType `bar`. -/
def c1Raw : String :=
  "Note \x7bx\x7d here \x7b\"type\":\"chart\",\"chartType\":\"bar\",\"explanation\":\"E\",\"data\":\x7b\"labels\":[\"a\"]\x7d\x7d"

/-- The embedded chart object of the **C1** counterexample, as text. -/
def c1ChartJson : String :=
  "\x7b\"type\":\"chart\",\"chartType\":\"bar\",\"explanation\":\"E\",\"data\":\x7b\"labels\":[\"a\"]\x7d\x7d"

/-- The embedded chart object of the **C1** counterexample, parsed. -/
def c1ChartVal : Json :=
  Json.obj [("type", Json.str "chart"), ("chartType", Json.str "bar"),
    ("explanation", Json.str "E"),
    ("data", Json.obj [("labels", Json.arr [Json.str "a"])])]

/-- **C1** counterexample: `c1Raw` contains (as a substring) a
syntactically valid chart-tagged JSON object with the recognized
chartType `bar`, yet both extractors return no chart, and the part_016
visible text is the raw string — raw JSON included — rather than the
explanation field. -/
theorem c1_counterexample :
    jsonParse c1ChartJson = some c1ChartVal
    ∧ getField c1ChartVal "chartType" = some (Json.str "bar")
    ∧ ("bar" ∈ (["line", "bar", "pie", "doughnut"] : List String))
    ∧ containsSub c1ChartJson.data c1Raw.data = true
    ∧ p16Extract c1Raw = { finalText := Json.str c1Raw, chartData := none }
    ∧ extractChartJson c1Raw = none :=
  ⟨rfl, rfl, by decide, by decide, rfl, rfl⟩

/-- **C1** (amended): the extractor returns the parsed object unchanged
and sets the visible text to its explanation field only when the
first-`{`-to-last-`}` span of the fence-stripped text is exactly a
parseable JSON object with truthy `data` and `chartType` fields and a
nonempty string `explanation` (and the chart tag occurs verbatim);
stray braces around the object defeat the extraction. -/
theorem c1_extract_explanation (raw s : String) (p : Json) (e : String)
    (htag : p16HasChartTag raw = true)
    (hslice : braceSlice
        (jsTrim (removeAll ("```".data) (removeAll ("```json".data) raw.data)))
      = some s.data)
    (hparse : jsonParse s = some p)
    (hdata : jsTruthyO (getField p "data") = true)
    (hct : jsTruthyO (getField p "chartType") = true)
    (hexp : getField p "explanation" = some (Json.str e))
    (hne : e ≠ "") :
    p16Extract raw = { finalText := Json.str e, chartData := some p } := by
  unfold p16Extract
  rw [if_pos htag]
  simp only [hslice]
  rw [show String.mk s.data = s from rfl]
  simp only [hparse, hdata, hct, Bool.and_self, if_true]
  simp [jsOrJson, hexp, jsTruthy, hne]

/-- **C1** witness: on a raw text that is exactly the serialized chart
object, the amended extraction applies: chart returned unchanged, visible
text set to the explanation `E`. -/
theorem c1_witness :
    p16Extract c1ChartJson =
      { finalText := Json.str "E", chartData := some c1ChartVal } :=
  c1_extract_explanation c1ChartJson c1ChartJson c1ChartVal "E"
    (by decide) (by decide) rfl rfl rfl rfl (by decide)

/-- The raw text of the **C4** counterexample: a parseable chart-tagged
object whose chartType `scatter` is not a member of the recognized enum. -/
def c4Raw : String :=
  "\x7b\"type\":\"chart\",\"chartType\":\"scatter\",\"data\":\x7b\x7d\x7d"

/-- The parsed value of the **C4** counterexample. -/
def c4Val : Json :=
  Json.obj [("type", Json.str "chart"), ("chartType", Json.str "scatter"),
    ("data", Json.obj [])]

/-- **C4** counterexample: the chartType `scatter` is outside the
recognized enum, yet `extractChartJson` returns the chart instead of
discarding it, and the part_016 block accepts it as well (no enum
validation exists anywhere). -/
theorem c4_counterexample :
    jsonParse c4Raw = some c4Val
    ∧ getField c4Val "chartType" = some (Json.str "scatter")
    ∧ ¬ ("scatter" ∈ (["line", "bar", "pie", "doughnut"] : List String))
    ∧ extractChartJson c4Raw = some c4Val
    ∧ p16Extract c4Raw =
        { finalText := Json.str "Here is the visualization you requested.",
          chartData := some c4Val } :=
  ⟨rfl, rfl, by decide, rfl, rfl⟩

/-- **C4** (amended): `extractChartJson` validates no chartType enum: a
brace-span candidate that parses to an object tagged `type === 'chart'`
is returned whatever its `chartType` value; a candidate that fails to
parse is silently discarded (`null` chart, no error surfaced). -/
theorem c4_no_enum_validation (raw : String) (cand : List Char)
    (hfen : fencedLazy raw.data = none)
    (hbr : braceSlice raw.data = some cand) :
    (jsonParse (String.mk cand) = none → extractChartJson raw = none)
    ∧ (∀ p, jsonParse (String.mk cand) = some p →
        getField p "type" = some (Json.str "chart") →
        extractChartJson raw = some p) := by
  constructor
  · intro hp
    simp [extractChartJson, hfen, hbr, parseCand, hp]
  · intro p hp ht
    simp [extractChartJson, hfen, hbr, parseCand, hp, ht]

/-- The raw text of the **C4** witness. -/
def c4WitnessRaw : String := "\x7b\"type\":\"chart\",\"chartType\":\"line\"\x7d"

/-- The parsed value of the **C4** witness. -/
def c4WitnessVal : Json :=
  Json.obj [("type", Json.str "chart"), ("chartType", Json.str "line")]

/-- **C4** witness: acceptance of a concrete chart-tagged object (here
with chartType `line`) via the amended statement. -/
theorem c4_witness :
    extractChartJson c4WitnessRaw = some c4WitnessVal :=
  (c4_no_enum_validation c4WitnessRaw c4WitnessRaw.data rfl rfl).2
    c4WitnessVal rfl rfl

/-- Shape of the `sources` field of any 200 body the analytics handler
produces: absent, or exactly the fixed one-element `Live Database` list. -/
theorem analytics_ok_sources (a : AnalyticsOracle) (r2 : ChatResult)
    (ha : handleAnalyticsQuery a = Except.ok r2) :
    r2.sources = none
    ∨ r2.sources = some [{ source := some "Live Database", score := some 1 }] := by
  unfold handleAnalyticsQuery at ha
  split at ha
  · exact absurd ha (by simp)
  · split at ha
    · cases Except.ok.inj ha
      left
      rfl
    · split at ha
      · cases Except.ok.inj ha
        left
        rfl
      · split at ha
        · cases Except.ok.inj ha
          left
          rfl
        · cases Except.ok.inj ha
          right
          rfl

/-- Shape of the `sources` field of any semantic-handler body: absent, or
a list of at most 3 entries. -/
theorem semantic_sources_shape (s : SemanticOracle) :
    (handleSemanticQuery s).sources = none
    ∨ ∃ l, (handleSemanticQuery s).sources = some l ∧ l.length ≤ 3 := by
  unfold handleSemanticQuery
  by_cases h1 : s.embedding.length = 0
  · rw [if_pos h1]
    left
    rfl
  · rw [if_neg h1]
    by_cases h2 : s.queryMatches.length = 0
    · rw [if_pos h2]
      left
      rfl
    · rw [if_neg h2]
      right
      refine ⟨_, rfl, ?_⟩
      simp only [List.length_map, List.length_take]
      exact min_le_left _ _

/-- **C9** counterexample: when retrieval returns zero matches, the
router-variant semantic handler answers the fallback with NO `sources`
key at all (`none`), not with an empty `sources` array — so not every 200
body contains a `sources` field. -/
theorem c9_counterexample :
    handleSemanticQuery { embedding := [1], queryMatches := [], llmContent := none }
      = { response := NO_ANSWER_FALLBACK, chartData := none, sources := none }
    ∧ ({ response := NO_ANSWER_FALLBACK, chartData := none,
         sources := none } : ChatResult).sources ≠ some [] :=
  ⟨rfl, by simp⟩

/-- **C9** (amended): every 200 body either omits the `sources` key or
carries at most 3 entries; and an in-domain-routed (semantic) message with
a good embedding but zero retrieval matches yields exactly the fallback
body with the `sources` key absent (not the empty array). -/
theorem c9_sources_bounded (message : String) (o : Oracles) (r : ChatResult)
    (h : POST message o = ApiResponse.ok r) :
    (r.sources = none ∨ ∃ l, r.sources = some l ∧ l.length ≤ 3)
    ∧ (routerPath message = RoutePath.semantic →
       o.semantic.embedding ≠ [] → o.semantic.queryMatches = [] →
       r = { response := NO_ANSWER_FALLBACK, chartData := none, sources := none }) := by
  unfold POST at h
  by_cases hm : message = ""
  · rw [if_pos hm] at h
    exact absurd h (by simp)
  · rw [if_neg hm] at h
    constructor
    · cases hp : routerPath message with
      | analytics =>
          rw [hp] at h
          cases ha : handleAnalyticsQuery o.analytics with
          | error e =>
              rw [ha] at h
              exact absurd h (by simp)
          | ok r2 =>
              rw [ha] at h
              have hr : r2 = r := by simpa using h
              subst hr
              rcases analytics_ok_sources o.analytics r2 ha with hs | hs
              · exact Or.inl hs
              · exact Or.inr ⟨_, hs, by simp⟩
      | semantic =>
          rw [hp] at h
          have heq : handleSemanticQuery o.semantic = r := by simpa using h
          rw [← heq]
          exact semantic_sources_shape o.semantic
    · intro hp hne hmz
      rw [hp] at h
      have heq : handleSemanticQuery o.semantic = r := by simpa using h
      rw [← heq]
      unfold handleSemanticQuery
      have h1 : ¬ o.semantic.embedding.length = 0 := by
        simpa [List.length_eq_zero] using hne
      rw [if_neg h1, if_pos (by simp [hmz])]

/-- The oracles of the **C9** witness: a semantic-routed message with a
good embedding and zero matches. -/
def c9Oracles : Oracles :=
  { analytics := { sqlContent := none, rpcError := false, rpcData := Json.null,
                   summaryContent := none },
    semantic := { embedding := [1], queryMatches := [], llmContent := none } }

/-- The 200 body of the **C9** witness run. -/
def c9Body : ChatResult :=
  { response := NO_ANSWER_FALLBACK, chartData := none, sources := none }

/-- **C9** witness: the zero-match run concretely produces the fallback
body with the `sources` key absent, and its sources obey the bound. -/
theorem c9_witness :
    (c9Body.sources = none ∨ ∃ l, c9Body.sources = some l ∧ l.length ≤ 3)
    ∧ c9Body = { response := NO_ANSWER_FALLBACK, chartData := none,
                 sources := none } :=
  ⟨(c9_sources_bounded "hello there" c9Oracles c9Body (by rfl)).1,
   (c9_sources_bounded "hello there" c9Oracles c9Body (by rfl)).2
     (by decide) (by decide) rfl⟩
